import Mathlib

/-!
# cnstio/controller: manager option defaulting and the generic event channel registry

Shallow embedding of

* `manager/options.go`: the `Options` record and `(*Options).defaults`;
* `context/controller_manager_context.go`: `GetGenericEventChannelFor` over the
  `genericEventCache` (`sync.Map`).

Conventions.

* Go `string` is `String`, `bool` is `Bool`, `int` and `time.Duration` are `Int`.
* A pointer, interface or function value is `Option Nat`: `none` is `nil`, and
  `some i` is the instance with identity `i`.
* Everything `defaults` reads from outside the record is an explicit argument:
  the process environment (`Env`), the package-level values declared outside the
  given sources (`Pkg`), and the identity of the scheme that `runtime.NewScheme()`
  would allocate.
* A channel is identified by the number of channels made before it. The registry
  is modelled twice: one call at a time (`GetGenericEventChannelFor`, `calls`), and
  as calls of several goroutines whose `sync.Map` operations interleave
  (`Call.step`, `System.run`); `run_alone` relates the two.
-/

namespace Manager

/-! ## The options record (`manager/options.go`, `type Options struct`) -/

/-- Options describes the options used to create a new manager. Fields are in
source order. -/
structure Options where
  Prefix : String := ""
  LeaderElectionEnabled : Bool := false
  LeaderElectionID : String := ""
  LeaderElectionIDSuffix : String := ""
  SyncPeriod : Int := 0
  MaxConcurrentReconciles : Int := 0
  MetricsAddr : String := ""
  HealthAddr : String := ""
  LeaderElectionNamespace : String := ""
  PodName : String := ""
  PodNameSuffix : String := ""
  PodNamespace : String := ""
  PodNamespaceSuffix : String := ""
  WatchNamespace : String := ""
  WebhookPort : Int := 0
  Logger : Option Nat := none
  KubeConfig : Option Nat := none
  Scheme : Option Nat := none
  NewCache : Option Nat := none
  AddToManager : Option Nat := none
deriving DecidableEq, Repr

/-- Package-level values that `defaults` refers to and that are declared outside
the given sources: the constant `DefaultSyncPeriod` of package `manager`, whose
value is not known here, and the logger instance held by `ctrllog.Log`
(controller-runtime). `ctrllog.Log` is a pointer-typed variable, so assigning it
to the interface field `o.Logger` always gives a non-nil interface value. -/
structure Pkg where
  DefaultSyncPeriod : Int
  ctrllogLog : Nat
deriving DecidableEq, Repr

/-- What the three system calls of `defaults` return.

* `podNamespaceEnv` is `os.LookupEnv("POD_NAMESPACE")`: `some v` when `ok`.
* `namespaceFile` is `ioutil.ReadFile` of the service-account namespace file:
  `some data` when `err == nil`, `none` when the read fails.
* `hostname`, `hostnameErr` are the two results of `os.Hostname()`;
  `hostnameErr = true` stands for `err != nil`. Go returns the empty name
  together with an error; the model allows any name there.

File contents are taken as text. -/
structure Env where
  podNamespaceEnv : Option String := none
  namespaceFile : Option String := none
  hostname : String := ""
  hostnameErr : Bool := false
deriving DecidableEq, Repr

/-! ## `strings.TrimSpace` -/

/-- Go `unicode.IsSpace`: the Latin-1 spaces and the code points with the Unicode
`White_Space` property. -/
def isSpace (c : Char) : Bool :=
  let n := c.toNat
  n == 0x09 || n == 0x0A || n == 0x0B || n == 0x0C || n == 0x0D || n == 0x20 ||
  n == 0x85 || n == 0xA0 || n == 0x1680 || (0x2000 ≤ n && n ≤ 0x200A) ||
  n == 0x2028 || n == 0x2029 || n == 0x202F || n == 0x205F || n == 0x3000

/-- Go `strings.TrimSpace`: the string with all leading and trailing white space
removed. -/
def TrimSpace (s : String) : String :=
  ⟨((s.data.dropWhile isSpace).reverse.dropWhile isSpace).reverse⟩

/-! ## `(*Options).defaults`

One definition per statement of the method body, in source order; `defaults`
is their composition. -/

/-- Statement `if o.Logger == nil { o.Logger = ctrllog.Log }`. -/
def defaultsLogger (pkg : Pkg) (o : Options) : Options :=
  if o.Logger = none then { o with Logger := some pkg.ctrllogLog } else o

/-- Statement `if o.PodName == "" { ... }`. The inner test is the source's
`if name, err := os.Hostname(); err != nil`: the returned name is used when the
lookup reports an error, the literal when it does not. -/
def defaultsPodName (env : Env) (o : Options) : Options :=
  if o.PodName = "" then
    if o.PodNameSuffix = "" then
      if env.hostnameErr then
        { o with PodName := o.Prefix ++ env.hostname }
      else
        { o with PodName := o.Prefix ++ "controller-manager" }
    else
      { o with PodName := o.Prefix ++ o.PodNameSuffix }
  else o

/-- Statement `if o.SyncPeriod == 0 { o.SyncPeriod = DefaultSyncPeriod }`. -/
def defaultsSyncPeriod (pkg : Pkg) (o : Options) : Options :=
  if o.SyncPeriod = 0 then { o with SyncPeriod := pkg.DefaultSyncPeriod } else o

/-- Statement `if o.Scheme == nil { o.Scheme = runtime.NewScheme() }`; `newScheme` is the
identity of the scheme the call allocates. -/
def defaultsScheme (newScheme : Nat) (o : Options) : Options :=
  if o.Scheme = none then { o with Scheme := some newScheme } else o

/-- The pod-namespace statement:
`if ns, ok := os.LookupEnv("POD_NAMESPACE"); ok { ... } else if data, err :=
ioutil.ReadFile(...); err == nil { ... } else { ... }`.
`len(ns) > 0` is stated on the number of characters, which is positive exactly
when the number of bytes is. -/
def defaultsPodNamespace (env : Env) (o : Options) : Options :=
  match env.podNamespaceEnv with
  | some ns => { o with PodNamespace := ns }
  | none =>
    match env.namespaceFile with
    | some data =>
      let ns := TrimSpace data
      if 0 < ns.length then { o with PodNamespace := ns } else o
    | none =>
      if o.PodNamespace = "" then
        if o.PodNamespaceSuffix = "" then
          { o with PodNamespace := o.Prefix ++ "system" }
        else
          { o with PodNamespace := o.Prefix ++ o.PodNamespaceSuffix }
      else o

/-- Statement `if o.LeaderElectionID == "" { ... }`. -/
def defaultsLeaderElectionID (o : Options) : Options :=
  if o.LeaderElectionID = "" then
    if o.LeaderElectionIDSuffix = "" then
      { o with LeaderElectionID := o.Prefix ++ o.PodName ++ "-runtime" }
    else
      { o with LeaderElectionID := o.Prefix ++ o.PodName ++ o.LeaderElectionIDSuffix }
  else o

/-- Statement
`if o.LeaderElectionNamespace == "" { o.LeaderElectionNamespace = "default" }`. -/
def defaultsLeaderElectionNamespace (o : Options) : Options :=
  if o.LeaderElectionNamespace = "" then { o with LeaderElectionNamespace := "default" } else o

/-- Embedding of `func (o *Options) defaults()`: the record after the call. The
method has no result and no error path; every input yields a record. -/
def defaults (pkg : Pkg) (env : Env) (newScheme : Nat) (o : Options) : Options :=
  defaultsLeaderElectionNamespace
    (defaultsLeaderElectionID
      (defaultsPodNamespace env
        (defaultsScheme newScheme
          (defaultsSyncPeriod pkg
            (defaultsPodName env
              (defaultsLogger pkg o))))))

end Manager

namespace Context

/-! ## The generic event channel registry (`context/controller_manager_context.go`)

A channel is identified by a natural number: two channel values are the same
instance exactly when their identities are equal. `make(chan event.GenericEvent)`
returns the identity `chans` (the number of channels made so far) and increments
it, so every `make` yields an identity no earlier `make` has returned. -/

/-- Go `schema.GroupVersionKind`: the key of the registry. Go compares struct keys
field by field, which is the derived equality. -/
structure GroupVersionKind where
  Group : String
  Version : String
  Kind : String
deriving DecidableEq, Repr

/-- The key of the `apps/v1` `Deployment` kind. -/
def deployments : GroupVersionKind := { Group := "apps", Version := "v1", Kind := "Deployment" }

/-- The key of the core `v1` `Pod` kind. -/
def pods : GroupVersionKind := { Group := "", Version := "v1", Kind := "Pod" }

/-- The contents of a `sync.Map` from `GroupVersionKind` to channel identities,
most recently stored entry first. -/
abbrev SyncMap := List (GroupVersionKind × Nat)

/-- Go `(*sync.Map).Load`: the value stored for `key`, if any. -/
def SyncMap.Load : SyncMap → GroupVersionKind → Option Nat
  | [], _ => none
  | (k, v) :: m, key => if k = key then some v else SyncMap.Load m key

/-- Go `(*sync.Map).LoadOrStore`: the existing value for `key` if present (`loaded`
is `true`), otherwise `value` is stored and returned (`loaded` is `false`).
Result: the map after the call, `actual`, `loaded`. -/
def SyncMap.LoadOrStore (m : SyncMap) (key : GroupVersionKind) (value : Nat) :
    SyncMap × Nat × Bool :=
  match SyncMap.Load m key with
  | some actual => (m, actual, true)
  | none => ((key, value) :: m, value, false)

/-- Go `ControllerManagerContext`, fields in source order; `Context` is the embedded
`context.Context`. -/
structure ControllerManagerContext where
  Context : Option Nat := none
  Namespace : String := ""
  Name : String := ""
  LeaderElectionID : String := ""
  LeaderElectionNamespace : String := ""
  WatchNamespace : String := ""
  Client : Option Nat := none
  Logger : Option Nat := none
  Recorder : Option Nat := none
  Scheme : Option Nat := none
  MaxConcurrentReconciles : Int := 0
  genericEventCache : SyncMap := []
deriving DecidableEq, Repr

/-- The state a call runs in: the context and the channel allocator. -/
structure State where
  c : ControllerManagerContext := {}
  chans : Nat := 0
deriving DecidableEq, Repr

/-- Embedding of `GetGenericEventChannelFor` run without interruption: the
returned channel and the state after the call.

    if val, ok := c.genericEventCache.Load(gvk); ok { return val }
    val, _ := c.genericEventCache.LoadOrStore(gvk, make(chan event.GenericEvent))
    return val
-/
def GetGenericEventChannelFor (s : State) (gvk : GroupVersionKind) : Nat × State :=
  match s.c.genericEventCache.Load gvk with
  | some val => (val, s)
  | none =>
    let candidate := s.chans
    let r := s.c.genericEventCache.LoadOrStore gvk candidate
    (r.2.1, { c := { s.c with genericEventCache := r.1 }, chans := s.chans + 1 })

/-- A sequence of calls, one after the other: the channels returned, in call
order, and the final state. -/
def calls : State → List GroupVersionKind → List Nat × State
  | s, [] => ([], s)
  | s, gvk :: rest =>
    let r := GetGenericEventChannelFor s gvk
    let q := calls r.2 rest
    (r.1 :: q.1, q.2)

/-- The states of a context that starts with the zero `sync.Map` and is only
ever touched through `GetGenericEventChannelFor`. The other fields are set at
construction and are arbitrary, and so is the number of channels the program
has made before the context exists. -/
inductive Reachable : State → Prop
  | init (c : ControllerManagerContext) (chans : Nat) (h : c.genericEventCache = []) :
      Reachable { c := c, chans := chans }
  | call (s : State) (gvk : GroupVersionKind) (h : Reachable s) :
      Reachable (GetGenericEventChannelFor s gvk).2

/-! ### Interleaved calls

A call in progress is at one of four points. Each of `Load`, `make` and
`LoadOrStore` is one atomic step (`sync.Map` operations are atomic); calls of
different goroutines interleave between steps in any order. -/

/-- Where a call of `GetGenericEventChannelFor` stands. -/
inductive Pc where
  /-- Not started: the next step is `Load`. -/
  | start
  /-- `Load` reported `ok == false`: the next step is `make`. -/
  | missed
  /-- The candidate channel is made: the next step is `LoadOrStore`. -/
  | made (candidate : Nat)
  /-- The call has returned `ret`. -/
  | done (ret : Nat)
deriving DecidableEq, Repr

/-- A call in progress: its argument and where it stands. -/
structure Call where
  gvk : GroupVersionKind
  pc : Pc := Pc.start
deriving DecidableEq, Repr

/-- One atomic step of one call. A call that has returned does nothing. -/
def Call.step (s : State) (t : Call) : State × Call :=
  match t.pc with
  | Pc.start =>
    match s.c.genericEventCache.Load t.gvk with
    | some val => (s, { t with pc := Pc.done val })
    | none => (s, { t with pc := Pc.missed })
  | Pc.missed =>
    ({ s with chans := s.chans + 1 }, { t with pc := Pc.made s.chans })
  | Pc.made candidate =>
    let r := s.c.genericEventCache.LoadOrStore t.gvk candidate
    ({ s with c := { s.c with genericEventCache := r.1 } }, { t with pc := Pc.done r.2.1 })
  | Pc.done _ => (s, t)

/-- The shared state and the calls in progress, indexed by goroutine. -/
structure System where
  s : State
  call : Nat → Call

/-- Goroutine `i` takes one step. -/
def System.step (sys : System) (i : Nat) : System :=
  let r := Call.step sys.s (sys.call i)
  { s := r.1, call := Function.update sys.call i r.2 }

/-- The goroutines take steps in the order the schedule lists them. -/
def System.run : System → List Nat → System
  | sys, [] => sys
  | sys, i :: sched => System.run (System.step sys i) sched

/-- Every goroutine `i` is about to call `GetGenericEventChannelFor (gvks i)` on
the context of state `s`. -/
def System.start (s : State) (gvks : Nat → GroupVersionKind) : System :=
  { s := s, call := fun i => { gvk := gvks i, pc := Pc.start } }

/-! ### Invariants -/

/-- Every stored channel has been made, and no channel is stored under two
keys. -/
def Inv (s : State) : Prop :=
  (∀ k v, s.c.genericEventCache.Load k = some v → v < s.chans) ∧
  (∀ k₁ k₂ v, s.c.genericEventCache.Load k₁ = some v →
    s.c.genericEventCache.Load k₂ = some v → k₁ = k₂)

/-- What holds of the shared state and of every call in progress, whatever the
interleaving: the registry invariant; a candidate that is made but not yet
offered to `LoadOrStore` is a made channel, is stored nowhere, and is the
candidate of no other call; a call that has returned has returned the channel
stored for its key. -/
def SysInv (sys : System) : Prop :=
  Inv sys.s ∧
  (∀ i cand, (sys.call i).pc = Pc.made cand →
    cand < sys.s.chans ∧
    (∀ k, sys.s.c.genericEventCache.Load k ≠ some cand) ∧
    (∀ j cand', j ≠ i → (sys.call j).pc = Pc.made cand' → cand' ≠ cand)) ∧
  (∀ i r, (sys.call i).pc = Pc.done r →
    sys.s.c.genericEventCache.Load (sys.call i).gvk = some r)

/-- How far a call has got: the number of steps it has certainly behind it. -/
def Pc.rank : Pc → Nat
  | Pc.start => 0
  | Pc.missed => 1
  | Pc.made _ => 2
  | Pc.done _ => 3

end Context

namespace Manager

/-! ## Strings -/

theorem length_eq_zero_iff (s : String) : s.length = 0 ↔ s = "" := by
  cases s with
  | mk d =>
    cases d with
    | nil => exact ⟨fun _ => rfl, fun _ => rfl⟩
    | cons a l =>
      constructor
      · intro h
        simp [String.length] at h
      · intro h
        have hd : a :: l = [] := congrArg String.data h
        cases hd

theorem length_pos_iff_ne_empty (s : String) : 0 < s.length ↔ s ≠ "" := by
  rw [Nat.pos_iff_ne_zero, Ne, Ne, length_eq_zero_iff]

theorem append_ne_empty_right (a b : String) (h : b ≠ "") : a ++ b ≠ "" := by
  intro hab
  have hl : (a ++ b).length = 0 := by rw [hab]; rfl
  rw [String.length_append] at hl
  exact h ((length_eq_zero_iff b).mp (by omega))

theorem append_ne_empty_left (a b : String) (h : a ≠ "") : a ++ b ≠ "" := by
  intro hab
  have hl : (a ++ b).length = 0 := by rw [hab]; rfl
  rw [String.length_append] at hl
  exact h ((length_eq_zero_iff a).mp (by omega))

/-! ## Each statement of `defaults` as one field update -/

theorem defaultsLogger_eq (pkg : Pkg) (o : Options) :
    defaultsLogger pkg o =
      { o with Logger := if o.Logger = none then some pkg.ctrllogLog else o.Logger } := by
  unfold defaultsLogger
  split <;> rfl

theorem defaultsPodName_eq (env : Env) (o : Options) :
    defaultsPodName env o =
      { o with
        PodName :=
          if o.PodName = "" then
            if o.PodNameSuffix = "" then
              if env.hostnameErr then o.Prefix ++ env.hostname
              else o.Prefix ++ "controller-manager"
            else o.Prefix ++ o.PodNameSuffix
          else o.PodName } := by
  unfold defaultsPodName
  split_ifs <;> rfl

theorem defaultsSyncPeriod_eq (pkg : Pkg) (o : Options) :
    defaultsSyncPeriod pkg o =
      { o with SyncPeriod := if o.SyncPeriod = 0 then pkg.DefaultSyncPeriod else o.SyncPeriod } := by
  unfold defaultsSyncPeriod
  split <;> rfl

theorem defaultsScheme_eq (newScheme : Nat) (o : Options) :
    defaultsScheme newScheme o =
      { o with Scheme := if o.Scheme = none then some newScheme else o.Scheme } := by
  unfold defaultsScheme
  split <;> rfl

theorem defaultsPodNamespace_eq (env : Env) (o : Options) :
    defaultsPodNamespace env o =
      { o with
        PodNamespace :=
          match env.podNamespaceEnv with
          | some ns => ns
          | none =>
            match env.namespaceFile with
            | some data => if 0 < (TrimSpace data).length then TrimSpace data else o.PodNamespace
            | none =>
              if o.PodNamespace = "" then
                if o.PodNamespaceSuffix = "" then o.Prefix ++ "system"
                else o.Prefix ++ o.PodNamespaceSuffix
              else o.PodNamespace } := by
  unfold defaultsPodNamespace
  cases env.podNamespaceEnv with
  | some ns => rfl
  | none =>
    cases env.namespaceFile with
    | some data =>
      simp only
      split_ifs <;> rfl
    | none =>
      simp only
      split_ifs <;> rfl

theorem defaultsLeaderElectionID_eq (o : Options) :
    defaultsLeaderElectionID o =
      { o with
        LeaderElectionID :=
          if o.LeaderElectionID = "" then
            if o.LeaderElectionIDSuffix = "" then o.Prefix ++ o.PodName ++ "-runtime"
            else o.Prefix ++ o.PodName ++ o.LeaderElectionIDSuffix
          else o.LeaderElectionID } := by
  unfold defaultsLeaderElectionID
  split_ifs <;> rfl

theorem defaultsLeaderElectionNamespace_eq (o : Options) :
    defaultsLeaderElectionNamespace o =
      { o with
        LeaderElectionNamespace :=
          if o.LeaderElectionNamespace = "" then "default" else o.LeaderElectionNamespace } := by
  unfold defaultsLeaderElectionNamespace
  split <;> rfl

/-! ## `defaults`, field by field -/

theorem defaults_PodName (pkg : Pkg) (env : Env) (newScheme : Nat) (o : Options) :
    (defaults pkg env newScheme o).PodName =
      if o.PodName = "" then
        if o.PodNameSuffix = "" then
          if env.hostnameErr then o.Prefix ++ env.hostname
          else o.Prefix ++ "controller-manager"
        else o.Prefix ++ o.PodNameSuffix
      else o.PodName := by
  simp only [defaults, defaultsLogger_eq, defaultsPodName_eq, defaultsSyncPeriod_eq,
    defaultsScheme_eq, defaultsPodNamespace_eq, defaultsLeaderElectionID_eq,
    defaultsLeaderElectionNamespace_eq]

theorem defaults_PodNamespace (pkg : Pkg) (env : Env) (newScheme : Nat) (o : Options) :
    (defaults pkg env newScheme o).PodNamespace =
      match env.podNamespaceEnv with
      | some ns => ns
      | none =>
        match env.namespaceFile with
        | some data => if 0 < (TrimSpace data).length then TrimSpace data else o.PodNamespace
        | none =>
          if o.PodNamespace = "" then
            if o.PodNamespaceSuffix = "" then o.Prefix ++ "system"
            else o.Prefix ++ o.PodNamespaceSuffix
          else o.PodNamespace := by
  simp only [defaults, defaultsLogger_eq, defaultsPodName_eq, defaultsSyncPeriod_eq,
    defaultsScheme_eq, defaultsPodNamespace_eq, defaultsLeaderElectionID_eq,
    defaultsLeaderElectionNamespace_eq]

theorem defaults_LeaderElectionID (pkg : Pkg) (env : Env) (newScheme : Nat) (o : Options) :
    (defaults pkg env newScheme o).LeaderElectionID =
      if o.LeaderElectionID = "" then
        if o.LeaderElectionIDSuffix = "" then
          o.Prefix ++ (defaults pkg env newScheme o).PodName ++ "-runtime"
        else
          o.Prefix ++ (defaults pkg env newScheme o).PodName ++ o.LeaderElectionIDSuffix
      else o.LeaderElectionID := by
  simp only [defaults, defaultsLogger_eq, defaultsPodName_eq, defaultsSyncPeriod_eq,
    defaultsScheme_eq, defaultsPodNamespace_eq, defaultsLeaderElectionID_eq,
    defaultsLeaderElectionNamespace_eq]

theorem defaults_LeaderElectionNamespace (pkg : Pkg) (env : Env) (newScheme : Nat)
    (o : Options) :
    (defaults pkg env newScheme o).LeaderElectionNamespace =
      if o.LeaderElectionNamespace = "" then "default" else o.LeaderElectionNamespace := by
  simp only [defaults, defaultsLogger_eq, defaultsPodName_eq, defaultsSyncPeriod_eq,
    defaultsScheme_eq, defaultsPodNamespace_eq, defaultsLeaderElectionID_eq,
    defaultsLeaderElectionNamespace_eq]

theorem defaults_SyncPeriod (pkg : Pkg) (env : Env) (newScheme : Nat) (o : Options) :
    (defaults pkg env newScheme o).SyncPeriod =
      if o.SyncPeriod = 0 then pkg.DefaultSyncPeriod else o.SyncPeriod := by
  simp only [defaults, defaultsLogger_eq, defaultsPodName_eq, defaultsSyncPeriod_eq,
    defaultsScheme_eq, defaultsPodNamespace_eq, defaultsLeaderElectionID_eq,
    defaultsLeaderElectionNamespace_eq]

theorem defaults_Scheme (pkg : Pkg) (env : Env) (newScheme : Nat) (o : Options) :
    (defaults pkg env newScheme o).Scheme =
      if o.Scheme = none then some newScheme else o.Scheme := by
  simp only [defaults, defaultsLogger_eq, defaultsPodName_eq, defaultsSyncPeriod_eq,
    defaultsScheme_eq, defaultsPodNamespace_eq, defaultsLeaderElectionID_eq,
    defaultsLeaderElectionNamespace_eq]

theorem defaults_Logger (pkg : Pkg) (env : Env) (newScheme : Nat) (o : Options) :
    (defaults pkg env newScheme o).Logger =
      if o.Logger = none then some pkg.ctrllogLog else o.Logger := by
  simp only [defaults, defaultsLogger_eq, defaultsPodName_eq, defaultsSyncPeriod_eq,
    defaultsScheme_eq, defaultsPodNamespace_eq, defaultsLeaderElectionID_eq,
    defaultsLeaderElectionNamespace_eq]

/-- The fields no statement of `defaults` assigns. -/
theorem defaults_frame (pkg : Pkg) (env : Env) (newScheme : Nat) (o : Options) :
    (defaults pkg env newScheme o).Prefix = o.Prefix ∧
    (defaults pkg env newScheme o).LeaderElectionEnabled = o.LeaderElectionEnabled ∧
    (defaults pkg env newScheme o).LeaderElectionIDSuffix = o.LeaderElectionIDSuffix ∧
    (defaults pkg env newScheme o).MaxConcurrentReconciles = o.MaxConcurrentReconciles ∧
    (defaults pkg env newScheme o).MetricsAddr = o.MetricsAddr ∧
    (defaults pkg env newScheme o).HealthAddr = o.HealthAddr ∧
    (defaults pkg env newScheme o).PodNameSuffix = o.PodNameSuffix ∧
    (defaults pkg env newScheme o).PodNamespaceSuffix = o.PodNamespaceSuffix ∧
    (defaults pkg env newScheme o).WatchNamespace = o.WatchNamespace ∧
    (defaults pkg env newScheme o).WebhookPort = o.WebhookPort ∧
    (defaults pkg env newScheme o).KubeConfig = o.KubeConfig ∧
    (defaults pkg env newScheme o).NewCache = o.NewCache ∧
    (defaults pkg env newScheme o).AddToManager = o.AddToManager := by
  simp only [defaults, defaultsLogger_eq, defaultsPodName_eq, defaultsSyncPeriod_eq,
    defaultsScheme_eq, defaultsPodNamespace_eq, defaultsLeaderElectionID_eq,
    defaultsLeaderElectionNamespace_eq, and_self]


/-! ## Pod namespace (C1, C9) -/

/-- C1 (counterexample to the claim as written): with an explicit `PodNamespace`
of `"custom-ns"` and `POD_NAMESPACE` set to `"other-ns"`, `defaults` leaves
`"other-ns"` in `PodNamespace`, not `"custom-ns"`. -/
theorem C1_explicit_namespace_overwritten :
    (defaults { DefaultSyncPeriod := 600000000000, ctrllogLog := 0 }
        { podNamespaceEnv := some "other-ns" } 1
        { PodNamespace := "custom-ns" }).PodNamespace = "other-ns" ∧
    (defaults { DefaultSyncPeriod := 600000000000, ctrllogLog := 0 }
        { podNamespaceEnv := some "other-ns" } 1
        { PodNamespace := "custom-ns" }).PodNamespace ≠ "custom-ns" := by
  decide

/-- C1 (amended): for a record whose `PodNamespace` is already the non-empty
value `n`, whenever `POD_NAMESPACE` is set to `e` the call leaves `e` in
`PodNamespace` (the environment variable wins over the explicit value); `n` is
kept when `POD_NAMESPACE` is unset and the namespace file is unreadable or blank
after trimming. -/
theorem C1_env_wins_over_explicit_namespace (pkg : Pkg) (env : Env) (newScheme : Nat)
    (o : Options) (n : String) (hn : o.PodNamespace = n) (hne : n ≠ "") :
    (∀ e, env.podNamespaceEnv = some e →
      (defaults pkg env newScheme o).PodNamespace = e) ∧
    (env.podNamespaceEnv = none →
      (∀ data, env.namespaceFile = some data → TrimSpace data = "") →
      (defaults pkg env newScheme o).PodNamespace = n) := by
  rw [defaults_PodNamespace]
  constructor
  · intro e he
    rw [he]
  · intro he hf
    rw [he]
    cases hfile : env.namespaceFile with
    | none =>
      simp only
      rw [if_neg (by rw [hn]; exact hne), hn]
    | some data =>
      simp only
      rw [hf data hfile, if_neg (by decide), hn]

theorem C1_env_wins_over_explicit_namespace_witness :
    (defaults { DefaultSyncPeriod := 600000000000, ctrllogLog := 0 }
        { podNamespaceEnv := some "other-ns" } 1
        { PodNamespace := "custom-ns" }).PodNamespace = "other-ns" :=
  (C1_env_wins_over_explicit_namespace { DefaultSyncPeriod := 600000000000, ctrllogLog := 0 }
    { podNamespaceEnv := some "other-ns" } 1 { PodNamespace := "custom-ns" } "custom-ns"
    rfl (by decide)).1 "other-ns" rfl

/-- C9: with no explicit `PodNamespace`, `POD_NAMESPACE` unset and the namespace
file unreadable, `defaults` sets `PodNamespace` to `Prefix + PodNamespaceSuffix`
when the suffix is non-empty and to `Prefix + "system"` when it is empty. The
failed read has no other effect: `defaults` is a total function to `Options`, so
there is no error for the caller to see. -/
theorem C9_namespace_fallback_on_read_error (pkg : Pkg) (env : Env) (newScheme : Nat)
    (o : Options) (hns : o.PodNamespace = "") (henv : env.podNamespaceEnv = none)
    (hfile : env.namespaceFile = none) :
    (o.PodNamespaceSuffix ≠ "" →
      (defaults pkg env newScheme o).PodNamespace = o.Prefix ++ o.PodNamespaceSuffix) ∧
    (o.PodNamespaceSuffix = "" →
      (defaults pkg env newScheme o).PodNamespace = o.Prefix ++ "system") := by
  rw [defaults_PodNamespace, henv, hfile]
  simp only
  rw [if_pos hns]
  constructor
  · intro hs
    rw [if_neg hs]
  · intro hs
    rw [if_pos hs]

theorem C9_namespace_fallback_on_read_error_witness :
    (defaults { DefaultSyncPeriod := 600000000000, ctrllogLog := 0 } {} 1
        { Prefix := "acme-" }).PodNamespace = "acme-system" :=
  (C9_namespace_fallback_on_read_error { DefaultSyncPeriod := 600000000000, ctrllogLog := 0 }
    {} 1 { Prefix := "acme-" } rfl rfl rfl).2 rfl

/-! ## Pod name (C2, C10) -/

/-- C2 (the code at the failing inputs): with `PodName` unset, `PodNameSuffix`
empty and `Prefix = "acme-"`, a hostname lookup that succeeds with `"node-1"`
yields `PodName = "acme-controller-manager"` (the claim: `"acme-node-1"`), and a
lookup that fails, returning the empty name, yields `PodName = "acme-"` (the
claim: `"acme-controller-manager"`). -/
theorem C2_hostname_branches_swapped :
    (defaults { DefaultSyncPeriod := 600000000000, ctrllogLog := 0 }
        { hostname := "node-1", hostnameErr := false } 1
        { Prefix := "acme-" }).PodName = "acme-controller-manager" ∧
    (defaults { DefaultSyncPeriod := 600000000000, ctrllogLog := 0 }
        { hostname := "node-1", hostnameErr := false } 1
        { Prefix := "acme-" }).PodName ≠ "acme-node-1" ∧
    (defaults { DefaultSyncPeriod := 600000000000, ctrllogLog := 0 }
        { hostname := "", hostnameErr := true } 1
        { Prefix := "acme-" }).PodName = "acme-" ∧
    (defaults { DefaultSyncPeriod := 600000000000, ctrllogLog := 0 }
        { hostname := "", hostnameErr := true } 1
        { Prefix := "acme-" }).PodName ≠ "acme-controller-manager" := by
  decide

/-- C10: with `PodName` unset and a non-empty `PodNameSuffix`, `defaults` sets
`PodName` to `Prefix + PodNameSuffix` in every environment, so two runs on the
same record in any two environments (in particular two that differ only in the
hostname lookup) leave the same `PodName`. -/
theorem C10_pod_name_independent_of_hostname (pkg : Pkg) (env₁ env₂ : Env)
    (newScheme₁ newScheme₂ : Nat) (o : Options)
    (hn : o.PodName = "") (hs : o.PodNameSuffix ≠ "") :
    (defaults pkg env₁ newScheme₁ o).PodName = o.Prefix ++ o.PodNameSuffix ∧
    (defaults pkg env₁ newScheme₁ o).PodName = (defaults pkg env₂ newScheme₂ o).PodName := by
  simp only [defaults_PodName, if_pos hn, if_neg hs, and_self]

theorem C10_pod_name_independent_of_hostname_witness :
    (defaults { DefaultSyncPeriod := 600000000000, ctrllogLog := 0 }
        { hostname := "node-1", hostnameErr := false } 1
        { Prefix := "acme-", PodNameSuffix := "mgr" }).PodName = "acme-mgr" ∧
    (defaults { DefaultSyncPeriod := 600000000000, ctrllogLog := 0 }
        { hostname := "node-1", hostnameErr := false } 1
        { Prefix := "acme-", PodNameSuffix := "mgr" }).PodName =
    (defaults { DefaultSyncPeriod := 600000000000, ctrllogLog := 0 }
        { hostname := "", hostnameErr := true } 2
        { Prefix := "acme-", PodNameSuffix := "mgr" }).PodName :=
  C10_pod_name_independent_of_hostname { DefaultSyncPeriod := 600000000000, ctrllogLog := 0 }
    { hostname := "node-1", hostnameErr := false } { hostname := "", hostnameErr := true } 1 2
    { Prefix := "acme-", PodNameSuffix := "mgr" } rfl (by decide)

/-! ## Leader-election ID (C3) -/

/-- C3 (counterexample to the claim as written): with `Prefix = "acme-"`,
`PodName` unset, `PodNameSuffix = "mgr"`, no explicit `LeaderElectionID` and no
`LeaderElectionIDSuffix`, the pod name resolves to `"acme-mgr"` and the
leader-election ID is `"acme-acme-mgr-runtime"`, not `"acme-mgr-runtime"`. -/
theorem C3_leader_election_id_repeats_prefix :
    (defaults { DefaultSyncPeriod := 600000000000, ctrllogLog := 0 } {} 1
        { Prefix := "acme-", PodNameSuffix := "mgr" }).PodName = "acme-mgr" ∧
    (defaults { DefaultSyncPeriod := 600000000000, ctrllogLog := 0 } {} 1
        { Prefix := "acme-", PodNameSuffix := "mgr" }).LeaderElectionID =
      "acme-acme-mgr-runtime" ∧
    (defaults { DefaultSyncPeriod := 600000000000, ctrllogLog := 0 } {} 1
        { Prefix := "acme-", PodNameSuffix := "mgr" }).LeaderElectionID ≠
      "acme-mgr-runtime" := by
  decide

/-- C3 (amended): with no explicit `LeaderElectionID` and no
`LeaderElectionIDSuffix`, the resulting `LeaderElectionID` is `Prefix`, then the
resolved pod name, then `"-runtime"`. -/
theorem C3_leader_election_id_default (pkg : Pkg) (env : Env) (newScheme : Nat)
    (o : Options) (hid : o.LeaderElectionID = "") (hs : o.LeaderElectionIDSuffix = "") :
    (defaults pkg env newScheme o).LeaderElectionID =
      o.Prefix ++ (defaults pkg env newScheme o).PodName ++ "-runtime" := by
  rw [defaults_LeaderElectionID, if_pos hid, if_pos hs]

theorem C3_leader_election_id_default_witness :
    (defaults { DefaultSyncPeriod := 600000000000, ctrllogLog := 0 } {} 1
        { Prefix := "acme-", PodNameSuffix := "mgr" }).LeaderElectionID =
      "acme-acme-mgr-runtime" :=
  C3_leader_election_id_default { DefaultSyncPeriod := 600000000000, ctrllogLog := 0 } {} 1
    { Prefix := "acme-", PodNameSuffix := "mgr" } rfl rfl


/-! ## Frame (C6) -/

/-- C6: `defaults` leaves `PodName`, `LeaderElectionID` and
`LeaderElectionNamespace` as they were when non-empty before the call,
`SyncPeriod` when nonzero, `Scheme` and `Logger` when non-nil, and in every case
leaves `Prefix`, the three suffix fields, `WatchNamespace`,
`MaxConcurrentReconciles`, `WebhookPort`, `MetricsAddr`, `HealthAddr` and
`LeaderElectionEnabled` as they were. -/
theorem C6_defaults_frame (pkg : Pkg) (env : Env) (newScheme : Nat) (o : Options) :
    (o.PodName ≠ "" → (defaults pkg env newScheme o).PodName = o.PodName) ∧
    (o.LeaderElectionID ≠ "" →
      (defaults pkg env newScheme o).LeaderElectionID = o.LeaderElectionID) ∧
    (o.LeaderElectionNamespace ≠ "" →
      (defaults pkg env newScheme o).LeaderElectionNamespace = o.LeaderElectionNamespace) ∧
    (o.SyncPeriod ≠ 0 → (defaults pkg env newScheme o).SyncPeriod = o.SyncPeriod) ∧
    (o.Scheme ≠ none → (defaults pkg env newScheme o).Scheme = o.Scheme) ∧
    (o.Logger ≠ none → (defaults pkg env newScheme o).Logger = o.Logger) ∧
    (defaults pkg env newScheme o).Prefix = o.Prefix ∧
    (defaults pkg env newScheme o).PodNameSuffix = o.PodNameSuffix ∧
    (defaults pkg env newScheme o).PodNamespaceSuffix = o.PodNamespaceSuffix ∧
    (defaults pkg env newScheme o).LeaderElectionIDSuffix = o.LeaderElectionIDSuffix ∧
    (defaults pkg env newScheme o).WatchNamespace = o.WatchNamespace ∧
    (defaults pkg env newScheme o).MaxConcurrentReconciles = o.MaxConcurrentReconciles ∧
    (defaults pkg env newScheme o).WebhookPort = o.WebhookPort ∧
    (defaults pkg env newScheme o).MetricsAddr = o.MetricsAddr ∧
    (defaults pkg env newScheme o).HealthAddr = o.HealthAddr ∧
    (defaults pkg env newScheme o).LeaderElectionEnabled = o.LeaderElectionEnabled := by
  have hf := defaults_frame pkg env newScheme o
  refine ⟨fun h => ?_, fun h => ?_, fun h => ?_, fun h => ?_, fun h => ?_, fun h => ?_,
    hf.1, hf.2.2.2.2.2.2.1, hf.2.2.2.2.2.2.2.1, hf.2.2.1, hf.2.2.2.2.2.2.2.2.1, hf.2.2.2.1,
    hf.2.2.2.2.2.2.2.2.2.1, hf.2.2.2.2.1, hf.2.2.2.2.2.1, hf.2.1⟩
  · rw [defaults_PodName, if_neg h]
  · rw [defaults_LeaderElectionID, if_neg h]
  · rw [defaults_LeaderElectionNamespace, if_neg h]
  · rw [defaults_SyncPeriod, if_neg h]
  · rw [defaults_Scheme, if_neg h]
  · rw [defaults_Logger, if_neg h]

theorem C6_defaults_frame_witness :
    (defaults { DefaultSyncPeriod := 600000000000, ctrllogLog := 0 }
        { podNamespaceEnv := some "other-ns", hostname := "node-1" } 1
        { PodName := "pod", LeaderElectionID := "lock", LeaderElectionNamespace := "kube-system",
          SyncPeriod := 5, Scheme := some 8, Logger := some 9 }).PodName = "pod" ∧
    (defaults { DefaultSyncPeriod := 600000000000, ctrllogLog := 0 }
        { podNamespaceEnv := some "other-ns", hostname := "node-1" } 1
        { PodName := "pod", LeaderElectionID := "lock", LeaderElectionNamespace := "kube-system",
          SyncPeriod := 5, Scheme := some 8, Logger := some 9 }).LeaderElectionID = "lock" ∧
    (defaults { DefaultSyncPeriod := 600000000000, ctrllogLog := 0 }
        { podNamespaceEnv := some "other-ns", hostname := "node-1" } 1
        { PodName := "pod", LeaderElectionID := "lock", LeaderElectionNamespace := "kube-system",
          SyncPeriod := 5, Scheme := some 8, Logger := some 9 }).LeaderElectionNamespace =
      "kube-system" ∧
    (defaults { DefaultSyncPeriod := 600000000000, ctrllogLog := 0 }
        { podNamespaceEnv := some "other-ns", hostname := "node-1" } 1
        { PodName := "pod", LeaderElectionID := "lock", LeaderElectionNamespace := "kube-system",
          SyncPeriod := 5, Scheme := some 8, Logger := some 9 }).SyncPeriod = 5 ∧
    (defaults { DefaultSyncPeriod := 600000000000, ctrllogLog := 0 }
        { podNamespaceEnv := some "other-ns", hostname := "node-1" } 1
        { PodName := "pod", LeaderElectionID := "lock", LeaderElectionNamespace := "kube-system",
          SyncPeriod := 5, Scheme := some 8, Logger := some 9 }).Scheme = some 8 ∧
    (defaults { DefaultSyncPeriod := 600000000000, ctrllogLog := 0 }
        { podNamespaceEnv := some "other-ns", hostname := "node-1" } 1
        { PodName := "pod", LeaderElectionID := "lock", LeaderElectionNamespace := "kube-system",
          SyncPeriod := 5, Scheme := some 8, Logger := some 9 }).Logger = some 9 :=
  have h := C6_defaults_frame { DefaultSyncPeriod := 600000000000, ctrllogLog := 0 }
    { podNamespaceEnv := some "other-ns", hostname := "node-1" } 1
    { PodName := "pod", LeaderElectionID := "lock", LeaderElectionNamespace := "kube-system",
      SyncPeriod := 5, Scheme := some 8, Logger := some 9 }
  ⟨h.1 (by decide), h.2.1 (by decide), h.2.2.1 (by decide), h.2.2.2.1 (by decide),
    h.2.2.2.2.1 (by decide), h.2.2.2.2.2.1 (by decide)⟩

/-! ## Idempotence (C4) -/

theorem defaultsLogger_fixed (pkg : Pkg) (d : Options) (h : d.Logger ≠ none) :
    defaultsLogger pkg d = d := by
  unfold defaultsLogger
  rw [if_neg h]

theorem defaultsSyncPeriod_fixed (pkg : Pkg) (d : Options)
    (h : d.SyncPeriod ≠ 0 ∨ d.SyncPeriod = pkg.DefaultSyncPeriod) :
    defaultsSyncPeriod pkg d = d := by
  rw [defaultsSyncPeriod_eq]
  have hv : (if d.SyncPeriod = 0 then pkg.DefaultSyncPeriod else d.SyncPeriod) = d.SyncPeriod := by
    split_ifs with h0
    · rcases h with h | h
      · exact absurd h0 h
      · exact h.symm
    · rfl
  rw [hv]

theorem defaultsScheme_fixed (newScheme : Nat) (d : Options) (h : d.Scheme ≠ none) :
    defaultsScheme newScheme d = d := by
  unfold defaultsScheme
  rw [if_neg h]

theorem defaultsLeaderElectionID_fixed (d : Options) (h : d.LeaderElectionID ≠ "") :
    defaultsLeaderElectionID d = d := by
  unfold defaultsLeaderElectionID
  rw [if_neg h]

theorem defaultsLeaderElectionNamespace_fixed (d : Options)
    (h : d.LeaderElectionNamespace ≠ "") : defaultsLeaderElectionNamespace d = d := by
  unfold defaultsLeaderElectionNamespace
  rw [if_neg h]


theorem defaults_fixed (pkg : Pkg) (env : Env) (newScheme : Nat) (d : Options)
    (hLogger : d.Logger ≠ none) (hPodName : defaultsPodName env d = d)
    (hSync : d.SyncPeriod ≠ 0 ∨ d.SyncPeriod = pkg.DefaultSyncPeriod)
    (hScheme : d.Scheme ≠ none) (hPodNamespace : defaultsPodNamespace env d = d)
    (hID : d.LeaderElectionID ≠ "") (hNS : d.LeaderElectionNamespace ≠ "") :
    defaults pkg env newScheme d = d := by
  unfold defaults
  rw [defaultsLogger_fixed pkg d hLogger, hPodName, defaultsSyncPeriod_fixed pkg d hSync,
    defaultsScheme_fixed newScheme d hScheme, hPodNamespace,
    defaultsLeaderElectionID_fixed d hID, defaultsLeaderElectionNamespace_fixed d hNS]

theorem defaults_Logger_ne_none (pkg : Pkg) (env : Env) (newScheme : Nat) (o : Options) :
    (defaults pkg env newScheme o).Logger ≠ none := by
  rw [defaults_Logger]
  split_ifs with h
  · exact Option.some_ne_none _
  · exact h

theorem defaults_Scheme_ne_none (pkg : Pkg) (env : Env) (newScheme : Nat) (o : Options) :
    (defaults pkg env newScheme o).Scheme ≠ none := by
  rw [defaults_Scheme]
  split_ifs with h
  · exact Option.some_ne_none _
  · exact h

theorem defaults_SyncPeriod_cases (pkg : Pkg) (env : Env) (newScheme : Nat) (o : Options) :
    (defaults pkg env newScheme o).SyncPeriod ≠ 0 ∨
      (defaults pkg env newScheme o).SyncPeriod = pkg.DefaultSyncPeriod := by
  rw [defaults_SyncPeriod]
  split_ifs with h
  · exact Or.inr rfl
  · exact Or.inl h

theorem defaults_LeaderElectionID_ne_empty (pkg : Pkg) (env : Env) (newScheme : Nat)
    (o : Options) : (defaults pkg env newScheme o).LeaderElectionID ≠ "" := by
  rw [defaults_LeaderElectionID]
  split_ifs with h hs
  · exact append_ne_empty_right _ _ (by decide)
  · exact append_ne_empty_right _ _ hs
  · exact h

theorem defaults_LeaderElectionNamespace_ne_empty (pkg : Pkg) (env : Env) (newScheme : Nat)
    (o : Options) : (defaults pkg env newScheme o).LeaderElectionNamespace ≠ "" := by
  rw [defaults_LeaderElectionNamespace]
  split_ifs with h
  · decide
  · exact h

/-- Running the pod-name statement again in the same environment changes
nothing. -/
theorem defaultsPodName_defaults (pkg : Pkg) (env : Env) (newScheme : Nat) (o : Options) :
    defaultsPodName env (defaults pkg env newScheme o) = defaults pkg env newScheme o := by
  rw [defaultsPodName_eq]
  have hv : (if (defaults pkg env newScheme o).PodName = "" then
        if (defaults pkg env newScheme o).PodNameSuffix = "" then
          if env.hostnameErr then (defaults pkg env newScheme o).Prefix ++ env.hostname
          else (defaults pkg env newScheme o).Prefix ++ "controller-manager"
        else (defaults pkg env newScheme o).Prefix ++ (defaults pkg env newScheme o).PodNameSuffix
      else (defaults pkg env newScheme o).PodName) = (defaults pkg env newScheme o).PodName := by
    have hf := defaults_frame pkg env newScheme o
    rw [hf.1, hf.2.2.2.2.2.2.1]
    by_cases hd : (defaults pkg env newScheme o).PodName = ""
    · rw [if_pos hd]
      have ho : o.PodName = "" := by
        by_contra hne
        rw [defaults_PodName, if_neg hne] at hd
        exact hne hd
      rw [defaults_PodName, if_pos ho]
    · rw [if_neg hd]
  rw [hv]

/-- Running the pod-namespace statement again in the same environment changes
nothing. -/
theorem defaultsPodNamespace_defaults (pkg : Pkg) (env : Env) (newScheme : Nat)
    (o : Options) :
    defaultsPodNamespace env (defaults pkg env newScheme o) = defaults pkg env newScheme o := by
  rw [defaultsPodNamespace_eq]
  have hv : (match env.podNamespaceEnv with
      | some ns => ns
      | none =>
        match env.namespaceFile with
        | some data =>
          if 0 < (TrimSpace data).length then TrimSpace data
          else (defaults pkg env newScheme o).PodNamespace
        | none =>
          if (defaults pkg env newScheme o).PodNamespace = "" then
            if (defaults pkg env newScheme o).PodNamespaceSuffix = "" then
              (defaults pkg env newScheme o).Prefix ++ "system"
            else
              (defaults pkg env newScheme o).Prefix ++
                (defaults pkg env newScheme o).PodNamespaceSuffix
          else (defaults pkg env newScheme o).PodNamespace) =
      (defaults pkg env newScheme o).PodNamespace := by
    have hp := defaults_PodNamespace pkg env newScheme o
    cases henv : env.podNamespaceEnv with
    | some ns =>
      rw [henv] at hp
      exact hp.symm
    | none =>
      rw [henv] at hp
      cases hfile : env.namespaceFile with
      | some data =>
        rw [hfile] at hp
        simp only at hp ⊢
        by_cases ht : 0 < (TrimSpace data).length
        · rw [if_pos ht] at hp ⊢
          exact hp.symm
        · rw [if_neg ht]
      | none =>
        rw [hfile] at hp
        simp only at hp ⊢
        have hne : (defaults pkg env newScheme o).PodNamespace ≠ "" := by
          rw [hp]
          split_ifs with h1 h2
          · exact append_ne_empty_right _ _ (by decide)
          · exact append_ne_empty_right _ _ h2
          · exact h1
        rw [if_neg hne]
  rw [hv]

/-- C4: for every options record and every fixed environment, running `defaults`
on the result of `defaults` gives that result again, field for field (the scheme
and the logger compared by identity); the second run allocates no scheme, so the
identity it would have used does not matter. -/
theorem C4_defaults_idempotent (pkg : Pkg) (env : Env) (newScheme₁ newScheme₂ : Nat)
    (o : Options) :
    defaults pkg env newScheme₂ (defaults pkg env newScheme₁ o) =
      defaults pkg env newScheme₁ o :=
  defaults_fixed pkg env newScheme₂ (defaults pkg env newScheme₁ o)
    (defaults_Logger_ne_none pkg env newScheme₁ o)
    (defaultsPodName_defaults pkg env newScheme₁ o)
    (defaults_SyncPeriod_cases pkg env newScheme₁ o)
    (defaults_Scheme_ne_none pkg env newScheme₁ o)
    (defaultsPodNamespace_defaults pkg env newScheme₁ o)
    (defaults_LeaderElectionID_ne_empty pkg env newScheme₁ o)
    (defaults_LeaderElectionNamespace_ne_empty pkg env newScheme₁ o)


/-! ## Which fields are set afterwards (C5) -/

/-- C5 (counterexample to the claim as written): take the zero record, with
`POD_NAMESPACE` unset, a readable namespace file holding only white space, and a
hostname lookup that fails. After the call `PodNamespace` is empty (the blank
file does not fall through to `Prefix + "system"`, which would be `"system"`),
and `PodName` is empty. With `POD_NAMESPACE` set to the empty value,
`PodNamespace` is empty as well. -/
theorem C5_pod_namespace_left_empty :
    (defaults { DefaultSyncPeriod := 600000000000, ctrllogLog := 0 }
        { namespaceFile := some " \n", hostname := "", hostnameErr := true } 1 {}).PodNamespace
      = "" ∧
    (defaults { DefaultSyncPeriod := 600000000000, ctrllogLog := 0 }
        { namespaceFile := some " \n", hostname := "", hostnameErr := true } 1 {}).PodNamespace
      ≠ "system" ∧
    (defaults { DefaultSyncPeriod := 600000000000, ctrllogLog := 0 }
        { namespaceFile := some " \n", hostname := "", hostnameErr := true } 1 {}).PodName
      = "" ∧
    (defaults { DefaultSyncPeriod := 600000000000, ctrllogLog := 0 }
        { podNamespaceEnv := some "" } 1 { Prefix := "acme-" }).PodNamespace = "" := by
  decide

/-- C5 (amended): after `defaults`, in every environment, `LeaderElectionID` and
`LeaderElectionNamespace` are non-empty and `Scheme` and `Logger` are non-nil;
`SyncPeriod` is nonzero when the constant `DefaultSyncPeriod` is; `PodName` is
non-empty when it was set before or `PodNameSuffix` or `Prefix` is non-empty;
`PodNamespace` is non-empty when `POD_NAMESPACE` is set to a non-empty value, or
is unset and the record had a non-empty `PodNamespace`, or the file read fails,
or the trimmed file contents are non-empty. -/
theorem C5_defaulted_fields_set (pkg : Pkg) (env : Env) (newScheme : Nat) (o : Options)
    (hsync : pkg.DefaultSyncPeriod ≠ 0) :
    (defaults pkg env newScheme o).LeaderElectionID ≠ "" ∧
    (defaults pkg env newScheme o).LeaderElectionNamespace ≠ "" ∧
    (defaults pkg env newScheme o).Scheme ≠ none ∧
    (defaults pkg env newScheme o).Logger ≠ none ∧
    (defaults pkg env newScheme o).SyncPeriod ≠ 0 ∧
    (o.PodName ≠ "" ∨ o.PodNameSuffix ≠ "" ∨ o.Prefix ≠ "" →
      (defaults pkg env newScheme o).PodName ≠ "") ∧
    ((∃ e, env.podNamespaceEnv = some e ∧ e ≠ "") ∨
      (env.podNamespaceEnv = none ∧
        (o.PodNamespace ≠ "" ∨ env.namespaceFile = none ∨
          ∃ data, env.namespaceFile = some data ∧ TrimSpace data ≠ "")) →
      (defaults pkg env newScheme o).PodNamespace ≠ "") := by
  refine ⟨defaults_LeaderElectionID_ne_empty pkg env newScheme o,
    defaults_LeaderElectionNamespace_ne_empty pkg env newScheme o,
    defaults_Scheme_ne_none pkg env newScheme o,
    defaults_Logger_ne_none pkg env newScheme o, ?_, ?_, ?_⟩
  · rw [defaults_SyncPeriod]
    split_ifs with h
    · exact hsync
    · exact h
  · intro h
    rw [defaults_PodName]
    by_cases hn : o.PodName = ""
    · rw [if_pos hn]
      by_cases hs : o.PodNameSuffix = ""
      · rw [if_pos hs]
        have hp : o.Prefix ≠ "" := by
          rcases h with h | h | h
          · exact absurd hn h
          · exact absurd hs h
          · exact h
        split_ifs
        · exact append_ne_empty_left _ _ hp
        · exact append_ne_empty_left _ _ hp
      · rw [if_neg hs]
        exact append_ne_empty_right _ _ hs
    · rw [if_neg hn]
      exact hn
  · intro h
    rw [defaults_PodNamespace]
    rcases h with ⟨e, he, hne⟩ | ⟨he, h⟩
    · rw [he]
      exact hne
    · rw [he]
      cases hfile : env.namespaceFile with
      | some data =>
        simp only
        by_cases ht : 0 < (TrimSpace data).length
        · rw [if_pos ht]
          exact (length_pos_iff_ne_empty _).mp ht
        · rw [if_neg ht]
          rcases h with h | h | ⟨d, hd, hdne⟩
          · exact h
          · rw [hfile] at h
            cases h
          · rw [hfile] at hd
            cases hd
            exact absurd ((length_pos_iff_ne_empty _).mpr hdne) ht
      | none =>
        simp only
        split_ifs with h1 h2
        · exact append_ne_empty_right _ _ (by decide)
        · exact append_ne_empty_right _ _ h2
        · exact h1

theorem C5_defaulted_fields_set_witness :
    (defaults { DefaultSyncPeriod := 600000000000, ctrllogLog := 0 }
        { namespaceFile := some " kube-system\n" } 1 { Prefix := "acme-" }).LeaderElectionID ≠ "" ∧
    (defaults { DefaultSyncPeriod := 600000000000, ctrllogLog := 0 }
        { namespaceFile := some " kube-system\n" } 1 { Prefix := "acme-" }).SyncPeriod ≠ 0 ∧
    (defaults { DefaultSyncPeriod := 600000000000, ctrllogLog := 0 }
        { namespaceFile := some " kube-system\n" } 1 { Prefix := "acme-" }).PodName ≠ "" ∧
    (defaults { DefaultSyncPeriod := 600000000000, ctrllogLog := 0 }
        { namespaceFile := some " kube-system\n" } 1 { Prefix := "acme-" }).PodNamespace ≠ "" :=
  have h := C5_defaulted_fields_set { DefaultSyncPeriod := 600000000000, ctrllogLog := 0 }
    { namespaceFile := some " kube-system\n" } 1 { Prefix := "acme-" } (by decide)
  ⟨h.1, h.2.2.2.2.1, h.2.2.2.2.2.1 (Or.inr (Or.inr (by decide))),
    h.2.2.2.2.2.2 (Or.inr ⟨rfl, Or.inr (Or.inr ⟨" kube-system\n", rfl, by decide⟩)⟩)⟩

end Manager

namespace Context

/-! ## The registry, one call at a time -/

theorem Load_cons (k : GroupVersionKind) (v : Nat) (m : SyncMap) (key : GroupVersionKind) :
    SyncMap.Load ((k, v) :: m) key = if k = key then some v else SyncMap.Load m key :=
  rfl

/-- A call for a key that is present returns the stored channel and changes
nothing. -/
theorem GetGenericEventChannelFor_hit (s : State) (gvk : GroupVersionKind) (v : Nat)
    (h : s.c.genericEventCache.Load gvk = some v) :
    GetGenericEventChannelFor s gvk = (v, s) := by
  unfold GetGenericEventChannelFor
  rw [h]

/-- A call for a key that is absent makes a channel, stores it and returns it. -/
theorem GetGenericEventChannelFor_miss (s : State) (gvk : GroupVersionKind)
    (h : s.c.genericEventCache.Load gvk = none) :
    GetGenericEventChannelFor s gvk =
      (s.chans,
        { c := { s.c with genericEventCache := (gvk, s.chans) :: s.c.genericEventCache },
          chans := s.chans + 1 }) := by
  unfold GetGenericEventChannelFor SyncMap.LoadOrStore
  rw [h]

theorem Inv_call (s : State) (gvk : GroupVersionKind) (h : Inv s) :
    Inv (GetGenericEventChannelFor s gvk).2 := by
  cases hl : s.c.genericEventCache.Load gvk with
  | some v =>
    rw [GetGenericEventChannelFor_hit s gvk v hl]
    exact h
  | none =>
    rw [GetGenericEventChannelFor_miss s gvk hl]
    obtain ⟨hlt, hinj⟩ := h
    refine ⟨?_, ?_⟩
    · intro k v hk
      simp only [Load_cons] at hk
      split_ifs at hk with hkk
      · cases hk
        exact Nat.lt_succ_self _
      · exact Nat.lt_succ_of_lt (hlt k v hk)
    · intro k₁ k₂ v h₁ h₂
      simp only [Load_cons] at h₁ h₂
      split_ifs at h₁ h₂ with e₁ e₂ e₂
      · exact e₁.symm.trans e₂
      · cases h₁
        exact absurd (hlt k₂ _ h₂) (Nat.lt_irrefl _)
      · cases h₂
        exact absurd (hlt k₁ _ h₁) (Nat.lt_irrefl _)
      · exact hinj k₁ k₂ v h₁ h₂

theorem Inv_of_Reachable (s : State) (h : Reachable s) : Inv s := by
  induction h with
  | init c chans hc =>
    constructor
    · intro k v hk
      simp only [hc, SyncMap.Load] at hk
      cases hk
    · intro k₁ k₂ v hk
      simp only [hc, SyncMap.Load] at hk
      cases hk
  | call s gvk _ ih => exact Inv_call s gvk ih

/-- The channel a call returns is the one stored for its key afterwards. -/
theorem Load_after_call (s : State) (gvk : GroupVersionKind) :
    (GetGenericEventChannelFor s gvk).2.c.genericEventCache.Load gvk =
      some (GetGenericEventChannelFor s gvk).1 := by
  cases hl : s.c.genericEventCache.Load gvk with
  | some v =>
    rw [GetGenericEventChannelFor_hit s gvk v hl]
    exact hl
  | none =>
    rw [GetGenericEventChannelFor_miss s gvk hl]
    simp only [Load_cons, if_true]

/-- A call never removes or replaces an entry. -/
theorem Load_call_of_Load (s : State) (gvk k : GroupVersionKind) (v : Nat)
    (h : s.c.genericEventCache.Load k = some v) :
    (GetGenericEventChannelFor s gvk).2.c.genericEventCache.Load k = some v := by
  cases hl : s.c.genericEventCache.Load gvk with
  | some w =>
    rw [GetGenericEventChannelFor_hit s gvk w hl]
    exact h
  | none =>
    rw [GetGenericEventChannelFor_miss s gvk hl]
    simp only [Load_cons]
    split_ifs with e
    · rw [e, h] at hl
      cases hl
    · exact h

theorem Inv_calls (gvks : List GroupVersionKind) (s : State) (h : Inv s) :
    Inv (calls s gvks).2 := by
  induction gvks generalizing s with
  | nil => exact h
  | cons gvk rest ih => exact ih _ (Inv_call s gvk h)

theorem Load_calls_of_Load (gvks : List GroupVersionKind) (s : State) (k : GroupVersionKind)
    (v : Nat) (h : s.c.genericEventCache.Load k = some v) :
    (calls s gvks).2.c.genericEventCache.Load k = some v := by
  induction gvks generalizing s with
  | nil => exact h
  | cons gvk rest ih => exact ih _ (Load_call_of_Load s gvk k v h)

theorem length_calls (gvks : List GroupVersionKind) (s : State) :
    (calls s gvks).1.length = gvks.length := by
  induction gvks generalizing s with
  | nil => rfl
  | cons gvk rest ih => simp only [calls, List.length_cons, ih]

/-- Every channel a sequence of calls returns is the one stored for its key at
the end. -/
theorem Load_calls_of_mem (gvks : List GroupVersionKind) (s : State)
    (p : GroupVersionKind × Nat) (hp : p ∈ List.zip gvks (calls s gvks).1) :
    (calls s gvks).2.c.genericEventCache.Load p.1 = some p.2 := by
  induction gvks generalizing s with
  | nil => simp only [calls, List.zip_nil_left, List.not_mem_nil] at hp
  | cons gvk rest ih =>
    simp only [calls, List.zip_cons_cons, List.mem_cons] at hp
    rcases hp with hp | hp
    · subst hp
      exact Load_calls_of_Load rest _ gvk _ (Load_after_call s gvk)
    · exact ih _ hp


/-- C7: from every reachable registry state and for every sequence of calls to
`GetGenericEventChannelFor`, one channel is returned per call, the channels
returned for two keys are the same instance exactly when the keys are equal, a
key that is present keeps its channel through the whole sequence, and a call for
a key that is present returns the stored channel and leaves the state as it
was. -/
theorem C7_one_channel_per_key (s : State) (hs : Reachable s)
    (gvks : List GroupVersionKind) :
    (calls s gvks).1.length = gvks.length ∧
    (∀ p ∈ List.zip gvks (calls s gvks).1, ∀ q ∈ List.zip gvks (calls s gvks).1,
      (p.2 = q.2 ↔ p.1 = q.1)) ∧
    (∀ k v, s.c.genericEventCache.Load k = some v →
      (calls s gvks).2.c.genericEventCache.Load k = some v ∧
      GetGenericEventChannelFor s k = (v, s)) := by
  refine ⟨length_calls gvks s, ?_, ?_⟩
  · intro p hp q hq
    have hp' := Load_calls_of_mem gvks s p hp
    have hq' := Load_calls_of_mem gvks s q hq
    have hinv := Inv_calls gvks s (Inv_of_Reachable s hs)
    constructor
    · intro e
      rw [← e] at hq'
      exact hinv.2 p.1 q.1 p.2 hp' hq'
    · intro e
      rw [← e, hp'] at hq'
      exact Option.some.inj hq'
  · intro k v h
    exact ⟨Load_calls_of_Load gvks s k v h, GetGenericEventChannelFor_hit s k v h⟩

theorem C7_one_channel_per_key_witness :
    (calls {} [deployments, pods, deployments]).1 = [0, 1, 0] ∧
    (∀ p ∈ List.zip [deployments, pods, deployments]
        (calls {} [deployments, pods, deployments]).1,
      ∀ q ∈ List.zip [deployments, pods, deployments]
        (calls {} [deployments, pods, deployments]).1,
      (p.2 = q.2 ↔ p.1 = q.1)) :=
  ⟨by decide,
    (C7_one_channel_per_key {} (Reachable.init {} 0 rfl) [deployments, pods, deployments]).2.1⟩


/-! ## The registry under interleaved calls -/

/-- A step that leaves the shared state alone and does not put the call at
`made`. -/
theorem SysInv_local (sys : System) (i : Nat) (t : Call) (h : SysInv sys)
    (hnm : ∀ c, t.pc ≠ Pc.made c)
    (hd : ∀ r, t.pc = Pc.done r → sys.s.c.genericEventCache.Load t.gvk = some r) :
    SysInv { s := sys.s, call := Function.update sys.call i t } := by
  refine ⟨h.1, ?_, ?_⟩
  · intro j cand hj
    dsimp only at hj ⊢
    by_cases hji : j = i
    · subst hji
      rw [Function.update_same] at hj
      exact absurd hj (hnm cand)
    · rw [Function.update_noteq hji] at hj
      obtain ⟨h1, h2, h3⟩ := h.2.1 j cand hj
      refine ⟨h1, h2, ?_⟩
      intro j' cand' hne hj'
      by_cases hj'i : j' = i
      · subst hj'i
        rw [Function.update_same] at hj'
        exact absurd hj' (hnm cand')
      · rw [Function.update_noteq hj'i] at hj'
        exact h3 j' cand' hne hj'
  · intro j r hj
    dsimp only at hj ⊢
    by_cases hji : j = i
    · subst hji
      rw [Function.update_same] at hj ⊢
      exact hd r hj
    · rw [Function.update_noteq hji] at hj ⊢
      exact h.2.2 j r hj

/-- The `make` step. -/
theorem SysInv_make (sys : System) (i : Nat) (h : SysInv sys)
    (hpc : (sys.call i).pc = Pc.missed) :
    SysInv { s := { sys.s with chans := sys.s.chans + 1 },
             call := Function.update sys.call i { sys.call i with pc := Pc.made sys.s.chans } } := by
  have hfree : ∀ k, sys.s.c.genericEventCache.Load k ≠ some sys.s.chans := by
    intro k hk
    exact absurd (h.1.1 k _ hk) (Nat.lt_irrefl _)
  refine ⟨⟨?_, h.1.2⟩, ?_, ?_⟩
  · intro k v hk
    exact Nat.lt_succ_of_lt (h.1.1 k v hk)
  · intro j cand hj
    dsimp only at hj ⊢
    by_cases hji : j = i
    · subst hji
      rw [Function.update_same] at hj
      cases hj
      refine ⟨Nat.lt_succ_self _, hfree, ?_⟩
      intro j' cand' hne hj'
      rw [Function.update_noteq hne] at hj'
      exact Nat.ne_of_lt (h.2.1 j' cand' hj').1
    · rw [Function.update_noteq hji] at hj
      obtain ⟨h1, h2, h3⟩ := h.2.1 j cand hj
      refine ⟨Nat.lt_succ_of_lt h1, h2, ?_⟩
      intro j' cand' hne hj'
      by_cases hj'i : j' = i
      · subst hj'i
        rw [Function.update_same] at hj'
        cases hj'
        exact (Nat.ne_of_lt h1).symm
      · rw [Function.update_noteq hj'i] at hj'
        exact h3 j' cand' hne hj'
  · intro j r hj
    dsimp only at hj ⊢
    by_cases hji : j = i
    · subst hji
      rw [Function.update_same] at hj
      cases hj
    · rw [Function.update_noteq hji] at hj ⊢
      exact h.2.2 j r hj

/-- The `LoadOrStore` step that stores the candidate. -/
theorem SysInv_store (sys : System) (i : Nat) (cand : Nat) (h : SysInv sys)
    (hpc : (sys.call i).pc = Pc.made cand)
    (hl : sys.s.c.genericEventCache.Load (sys.call i).gvk = none) :
    SysInv { s := { sys.s with
                    c := { sys.s.c with
                           genericEventCache :=
                             ((sys.call i).gvk, cand) :: sys.s.c.genericEventCache } },
             call := Function.update sys.call i { sys.call i with pc := Pc.done cand } } := by
  obtain ⟨hc1, hc2, hc3⟩ := h.2.1 i cand hpc
  refine ⟨⟨?_, ?_⟩, ?_, ?_⟩
  · intro k v hk
    simp only [Load_cons] at hk
    split_ifs at hk with e
    · cases hk
      exact hc1
    · exact h.1.1 k v hk
  · intro k₁ k₂ v h₁ h₂
    simp only [Load_cons] at h₁ h₂
    split_ifs at h₁ h₂ with e₁ e₂ e₂
    · exact e₁.symm.trans e₂
    · cases h₁
      exact absurd h₂ (hc2 k₂)
    · cases h₂
      exact absurd h₁ (hc2 k₁)
    · exact h.1.2 k₁ k₂ v h₁ h₂
  · intro j c hj
    dsimp only at hj ⊢
    by_cases hji : j = i
    · subst hji
      rw [Function.update_same] at hj
      cases hj
    · rw [Function.update_noteq hji] at hj
      obtain ⟨h1, h2, h3⟩ := h.2.1 j c hj
      refine ⟨h1, ?_, ?_⟩
      · intro k hk
        simp only [Load_cons] at hk
        split_ifs at hk with e
        · exact hc3 j c hji hj (Option.some.inj hk).symm
        · exact h2 k hk
      · intro j' cand' hne hj'
        by_cases hj'i : j' = i
        · subst hj'i
          rw [Function.update_same] at hj'
          cases hj'
        · rw [Function.update_noteq hj'i] at hj'
          exact h3 j' cand' hne hj'
  · intro j r hj
    dsimp only at hj ⊢
    by_cases hji : j = i
    · subst hji
      rw [Function.update_same] at hj ⊢
      cases hj
      simp only [Load_cons, if_true]
    · rw [Function.update_noteq hji] at hj ⊢
      have hold := h.2.2 j r hj
      simp only [Load_cons]
      split_ifs with e
      · rw [e, hold] at hl
        cases hl
      · exact hold


theorem SysInv_step (sys : System) (i : Nat) (h : SysInv sys) : SysInv (sys.step i) := by
  unfold System.step Call.step
  cases hpc : (sys.call i).pc with
  | start =>
    simp only
    cases hl : sys.s.c.genericEventCache.Load (sys.call i).gvk with
    | some v =>
      simp only
      exact SysInv_local sys i _ h (fun c hc => by cases hc)
        (fun r hr => by cases hr; exact hl)
    | none =>
      simp only
      exact SysInv_local sys i _ h (fun c hc => by cases hc) (fun r hr => by cases hr)
  | missed =>
    simp only
    exact SysInv_make sys i h hpc
  | made cand =>
    simp only
    unfold SyncMap.LoadOrStore
    cases hl : sys.s.c.genericEventCache.Load (sys.call i).gvk with
    | some v =>
      simp only
      exact SysInv_local sys i _ h (fun c hc => by cases hc)
        (fun r hr => by cases hr; exact hl)
    | none =>
      simp only
      exact SysInv_store sys i cand h hpc hl
  | done r =>
    simp only
    exact SysInv_local sys i _ h (fun c hc => by rw [hpc] at hc; cases hc)
      (fun r' hr => h.2.2 i r' hr)


theorem SysInv_run (sched : List Nat) (sys : System) (h : SysInv sys) :
    SysInv (sys.run sched) := by
  induction sched generalizing sys with
  | nil => exact h
  | cons i rest ih => exact ih _ (SysInv_step sys i h)

theorem SysInv_start (s : State) (gvks : Nat → GroupVersionKind) (h : Inv s) :
    SysInv (System.start s gvks) := by
  refine ⟨h, ?_, ?_⟩
  · intro i cand hi
    cases hi
  · intro i r hi
    cases hi

theorem Call.step_gvk (s : State) (t : Call) : (Call.step s t).2.gvk = t.gvk := by
  unfold Call.step
  cases t.pc with
  | start =>
    simp only
    cases s.c.genericEventCache.Load t.gvk <;> rfl
  | missed => rfl
  | made cand => rfl
  | done r => rfl

theorem Call.step_Load (s : State) (t : Call) (k : GroupVersionKind) (v : Nat)
    (h : s.c.genericEventCache.Load k = some v) :
    (Call.step s t).1.c.genericEventCache.Load k = some v := by
  unfold Call.step
  cases t.pc with
  | start =>
    simp only
    cases s.c.genericEventCache.Load t.gvk <;> exact h
  | missed => exact h
  | made cand =>
    simp only
    unfold SyncMap.LoadOrStore
    cases hl : s.c.genericEventCache.Load t.gvk with
    | some w => exact h
    | none =>
      simp only [Load_cons]
      split_ifs with e
      · rw [e, h] at hl
        cases hl
      · exact h
  | done r => exact h

theorem Call.step_rank (s : State) (t : Call) :
    min 3 (t.pc.rank + 1) ≤ (Call.step s t).2.pc.rank := by
  unfold Call.step
  cases hpc : t.pc with
  | start =>
    simp only
    cases s.c.genericEventCache.Load t.gvk <;> simp [Pc.rank]
  | missed => simp [Pc.rank]
  | made cand => simp [Pc.rank]
  | done r => simp [Pc.rank, hpc]

theorem run_gvk (sched : List Nat) (sys : System) (j : Nat) :
    ((sys.run sched).call j).gvk = (sys.call j).gvk := by
  induction sched generalizing sys with
  | nil => rfl
  | cons i rest ih =>
    rw [System.run, ih]
    unfold System.step
    by_cases hji : j = i
    · subst hji
      simp only [Function.update_same]
      exact Call.step_gvk _ _
    · simp only [Function.update_noteq hji]

theorem run_Load (sched : List Nat) (sys : System) (k : GroupVersionKind) (v : Nat)
    (h : sys.s.c.genericEventCache.Load k = some v) :
    (sys.run sched).s.c.genericEventCache.Load k = some v := by
  induction sched generalizing sys with
  | nil => exact h
  | cons i rest ih => exact ih _ (Call.step_Load sys.s (sys.call i) k v h)

theorem run_rank (sched : List Nat) (sys : System) (j : Nat) :
    min 3 ((sys.call j).pc.rank + sched.count j) ≤ ((sys.run sched).call j).pc.rank := by
  induction sched generalizing sys with
  | nil => simp [System.run]
  | cons i rest ih =>
    rw [System.run]
    have hrec := ih (sys.step i)
    by_cases hji : j = i
    · subst hji
      have hstep : min 3 ((sys.call j).pc.rank + 1) ≤ ((sys.step j).call j).pc.rank := by
        unfold System.step
        simp only [Function.update_same]
        exact Call.step_rank _ _
      rw [List.count_cons_self]
      omega
    · have hsame : (sys.step i).call j = sys.call j := by
        unfold System.step
        simp only [Function.update_noteq hji]
      rw [hsame] at hrec
      rw [List.count_cons_of_ne hji]
      exact hrec

theorem done_of_rank (p : Pc) (h : 3 ≤ p.rank) : ∃ r, p = Pc.done r := by
  cases p with
  | start => simp [Pc.rank] at h
  | missed => simp [Pc.rank] at h
  | made cand => simp [Pc.rank] at h
  | done r => exact ⟨r, rfl⟩

/-- A call that runs its three steps with no other call in between does what
`GetGenericEventChannelFor` does: same returned channel, same state after. -/
theorem run_alone (s : State) (gvks : Nat → GroupVersionKind) (i : Nat) :
    ((System.start s gvks).run [i, i, i]).s = (GetGenericEventChannelFor s (gvks i)).2 ∧
    (((System.start s gvks).run [i, i, i]).call i).pc =
      Pc.done (GetGenericEventChannelFor s (gvks i)).1 := by
  cases hl : s.c.genericEventCache.Load (gvks i) with
  | some v =>
    rw [GetGenericEventChannelFor_hit s (gvks i) v hl]
    simp [System.run, System.step, System.start, Call.step, hl]
  | none =>
    rw [GetGenericEventChannelFor_miss s (gvks i) hl]
    simp [System.run, System.step, System.start, Call.step, hl, SyncMap.LoadOrStore]


/-- C8: start any number of calls on a reachable context, goroutine `i` calling
`GetGenericEventChannelFor (gvks i)`, and let them take their atomic steps in any
order (`sched`). Then any two calls for the key `k` that have returned have
returned the same channel, and it is the channel stored for `k`, so a candidate
that lost the race to `LoadOrStore` is returned to nobody; a call that has been
given three steps has returned; and a channel stored for `k` beforehand is still
the one stored for `k`. -/
theorem C8_interleaved_calls_one_channel (s : State) (hs : Reachable s)
    (gvks : Nat → GroupVersionKind) (sched : List Nat) (k : GroupVersionKind) :
    (∀ i j ri rj, gvks i = k → gvks j = k →
      (((System.start s gvks).run sched).call i).pc = Pc.done ri →
      (((System.start s gvks).run sched).call j).pc = Pc.done rj →
      ri = rj ∧
      ((System.start s gvks).run sched).s.c.genericEventCache.Load k = some ri) ∧
    (∀ i, 3 ≤ sched.count i →
      ∃ r, (((System.start s gvks).run sched).call i).pc = Pc.done r) ∧
    (∀ v, s.c.genericEventCache.Load k = some v →
      ((System.start s gvks).run sched).s.c.genericEventCache.Load k = some v) := by
  have hinv := SysInv_run sched _ (SysInv_start s gvks (Inv_of_Reachable s hs))
  refine ⟨?_, ?_, ?_⟩
  · intro i j ri rj hi hj hri hrj
    have h₁ := hinv.2.2 i ri hri
    have h₂ := hinv.2.2 j rj hrj
    rw [run_gvk] at h₁ h₂
    have gi : ((System.start s gvks).call i).gvk = k := hi
    have gj : ((System.start s gvks).call j).gvk = k := hj
    rw [gi] at h₁
    rw [gj, h₁] at h₂
    exact ⟨Option.some.inj h₂, h₁⟩
  · intro i hi
    apply done_of_rank
    have h := run_rank sched (System.start s gvks) i
    omega
  · intro v hv
    exact run_Load sched (System.start s gvks) k v hv

theorem C8_interleaved_calls_one_channel_witness :
    (((System.start {} (fun _ => deployments)).run [0, 1, 0, 1, 0, 1]).call 0).pc = Pc.done 0 ∧
    (((System.start {} (fun _ => deployments)).run [0, 1, 0, 1, 0, 1]).call 1).pc = Pc.done 0 ∧
    ((System.start {} (fun _ => deployments)).run
      [0, 1, 0, 1, 0, 1]).s.c.genericEventCache.Load deployments = some 0 :=
  ⟨by decide, by decide,
    ((C8_interleaved_calls_one_channel {} (Reachable.init {} 0 rfl) (fun _ => deployments)
      [0, 1, 0, 1, 0, 1] deployments).1 0 1 0 0 rfl rfl (by decide) (by decide)).2⟩

end Context
